import Mathlib

/-
Shallow embedding of the VMBus channel engine of MacHyperVSupport.

Embedded sources:
  * MacHyperVSupport/VMBusDevice/HyperVVMBusDevice.cpp
      (attach / detach / openChannel / closeChannel)
  * MacHyperVSupport/VMBusController/VMBusDriver.hpp
      (kHyperVGpadlStartHandle, HyperVDMABuffer, VMBusChannelStatus,
       VMBusChannel)
  * MacHyperVSupport/Keyboard/HyperVKeyboard.cpp
      (start and the handleInterrupt receive-drain loop)

Side-effectful IOKit calls are modelled as explicit action traces; the
outcomes of fallible external calls (setupInterrupt, creation of an
IOInterruptEventSource, the provider calls) are supplied by an
environment record, since those callees live outside the embedded
translation unit.
-/

/-- IOKit's general error code `kIOReturnError` (0xE00002BC); a nonzero
IOReturn value. -/
def kIOReturnError : Nat := 0xE00002BC

/-- IOKit's success code `kIOReturnSuccess` (0). -/
def kIOReturnSuccess : Nat := 0

/-- C++ implicit conversion from an integral `IOReturn` value to `bool`:
any nonzero value converts to `true`. -/
def boolOfIOReturn (r : Nat) : Bool := r != 0

/-- Constant from VMBusDriver.hpp: `#define kHyperVGpadlStartHandle 0xE1E10`. -/
def kHyperVGpadlStartHandle : Nat := 0xE1E10

/-- Observable side effects performed by `HyperVVMBusDevice::openChannel`,
`HyperVVMBusDevice::closeChannel` and `HyperVVMBusDevice::detach`.  The
constructors `sendCloseChannelMessage`, `teardownGpadl` and
`releaseDMABuffer` name teardown effects the spec expects of `close()`;
they are present so theorems can state whether the code emits them. -/
inductive DevAction
  | setupInterrupt
  | createChildInterruptSource
  | addEventSource
  | enableChildInterruptSource
  | initVMBusChannel (chan tx rx : Nat)
  | openVMBusChannel (chan : Nat)
  | disableChildInterruptSource
  | removeEventSource
  | teardownInterrupt
  | sendCloseChannelMessage (chan : Nat)
  | teardownGpadl (handle : Nat)
  | releaseDMABuffer
deriving DecidableEq

/-- Guest-visible state of one `HyperVVMBusDevice` nub.  `channelIsOpen`
is the member flag set to `false` in `attach` and tested by `openChannel`
and `detach`; `childInterruptSourcePresent` models whether the
`childInterruptSource` member is non-NULL. -/
structure DeviceState where
  channelIsOpen : Bool
  channelId : Nat
  txBufferSize : Nat
  rxBufferSize : Nat
  childInterruptSourcePresent : Bool
deriving DecidableEq

/-- Outcomes of the external calls `openChannel` makes.  The two
provider results are recorded because the C++ code discards them. -/
structure OpenEnv where
  setupInterruptOk : Bool
  interruptEventSourceOk : Bool
  initVMBusChannelResult : Nat
  openVMBusChannelResult : Nat
deriving DecidableEq

/-- HyperVVMBusDevice::openChannel (HyperVVMBusDevice.cpp lines 50-77),
translated line by line.  Returns the C++ `bool` result, the updated
member state, and the trace of external calls made:
  * line 51: if `channelIsOpen`, return `true` immediately;
  * lines 56-57: store `txSize`/`rxSize` into the members;
  * lines 59-61: call `setupInterrupt()`; on failure return `false`;
  * lines 63-71: when `owner` and `intAction` are non-NULL, create the
    child interrupt event source; if creation yields NULL the code
    executes `return kIOReturnError;` inside a `bool` function, which is
    the nonzero-to-`true` conversion `boolOfIOReturn kIOReturnError`;
    otherwise the source is added to the work loop and enabled;
  * lines 73-74: call `initVMBusChannel` and `openVMBusChannel` on the
    provider, discarding both results;
  * line 76: return `true`.  Note the function never assigns
    `channelIsOpen = true`. -/
def openChannel (s : DeviceState) (txSize rxSize : Nat)
    (ownerPresent intActionPresent : Bool) (env : OpenEnv) :
    Bool × DeviceState × List DevAction :=
  if s.channelIsOpen then
    (true, s, [])
  else
    let s1 := { s with txBufferSize := txSize, rxBufferSize := rxSize }
    if !env.setupInterruptOk then
      (false, s1, [DevAction.setupInterrupt])
    else if ownerPresent && intActionPresent then
      if !env.interruptEventSourceOk then
        (boolOfIOReturn kIOReturnError, s1,
          [DevAction.setupInterrupt, DevAction.createChildInterruptSource])
      else
        (true, { s1 with childInterruptSourcePresent := true },
          [DevAction.setupInterrupt, DevAction.createChildInterruptSource,
           DevAction.addEventSource, DevAction.enableChildInterruptSource,
           DevAction.initVMBusChannel s1.channelId txSize rxSize,
           DevAction.openVMBusChannel s1.channelId])
    else
      (true, s1,
        [DevAction.setupInterrupt,
         DevAction.initVMBusChannel s1.channelId txSize rxSize,
         DevAction.openVMBusChannel s1.channelId])

/-- HyperVVMBusDevice::closeChannel (HyperVVMBusDevice.cpp lines 79-89):
if the child interrupt source is non-NULL it is disabled, removed from
the work loop and NULLed; then, after a `TODO: close channel.` comment,
`teardownInterrupt()` is called.  No close-channel message is sent, no
GPADL is torn down, no DMA buffer is released, and `channelIsOpen` is
not assigned. -/
def closeChannel (s : DeviceState) : DeviceState × List DevAction :=
  if s.childInterruptSourcePresent then
    ({ s with childInterruptSourcePresent := false },
      [DevAction.disableChildInterruptSource, DevAction.removeEventSource,
       DevAction.teardownInterrupt])
  else
    (s, [DevAction.teardownInterrupt])

/-- HyperVVMBusDevice::detach (HyperVVMBusDevice.cpp lines 42-48): calls
`closeChannel` only when `channelIsOpen` is set. -/
def detachDevice (s : DeviceState) : DeviceState × List DevAction :=
  if s.channelIsOpen then closeChannel s else (s, [])

/-- Device nub state right after a successful `attach` (line 20 sets
`channelIsOpen = false`; the channel id comes from the registry
property), before any `openChannel` call. -/
def attachedState : DeviceState :=
  { channelIsOpen := false, channelId := 1, txBufferSize := 0,
    rxBufferSize := 0, childInterruptSourcePresent := false }

/-- Environment in which every external call of `openChannel` succeeds. -/
def okOpenEnv : OpenEnv :=
  { setupInterruptOk := true, interruptEventSourceOk := true,
    initVMBusChannelResult := kIOReturnSuccess,
    openVMBusChannelResult := kIOReturnSuccess }

/-- Environment in which `IOInterruptEventSource::interruptEventSource`
returns NULL while everything else succeeds. -/
def badSourceEnv : OpenEnv :=
  { setupInterruptOk := true, interruptEventSourceOk := false,
    initVMBusChannelResult := kIOReturnSuccess,
    openVMBusChannelResult := kIOReturnSuccess }

/-- A device whose channel was (hypothetically) brought fully open: the
`channelIsOpen` flag set and the child interrupt source installed. -/
def openedDeviceState : DeviceState :=
  { channelIsOpen := true, channelId := 1, txBufferSize := 16384,
    rxBufferSize := 16384, childInterruptSourcePresent := true }

/-- C1: the claim reads "Calling open() on a channel that is already Open
is a no-op returning success: if a first open succeeded, a second
openChannel call returns success and performs no further interrupt setup,
buffer initialization, or open-channel messaging."  On the code this
fails: openChannel never assigns `channelIsOpen = true`, so after a fully
successful first open the flag is still `false` and a second call runs
`setupInterrupt`, `initVMBusChannel` and `openVMBusChannel` again.  The
guard at line 51 (and the `detach` guard at line 43) show the flag was
meant to be set on success; it never is. -/
theorem openChannel_second_call_repeats_setup :
    (openChannel attachedState 16384 16384 true true okOpenEnv).1 = true ∧
    (openChannel attachedState 16384 16384 true true okOpenEnv).2.1.channelIsOpen = false ∧
    DevAction.setupInterrupt ∈
      (openChannel (openChannel attachedState 16384 16384 true true okOpenEnv).2.1
        16384 16384 true true okOpenEnv).2.2 ∧
    DevAction.openVMBusChannel 1 ∈
      (openChannel (openChannel attachedState 16384 16384 true true okOpenEnv).2.1
        16384 16384 true true okOpenEnv).2.2 := by
  decide

/-- C2: the claim reads "if any step of open() fails, open() reports
failure to the caller ... and all resources acquired so far are
released."  On the code this fails: when the child interrupt event
source cannot be created (line 65), openChannel executes
`return kIOReturnError;` in a `bool`-returning function, which converts
the nonzero IOReturn to `true`, i.e. the caller is told the open
succeeded; moreover the interrupt setup done at line 59 is not torn down
(the trace ends after the failed creation, with no
`teardownInterrupt`). -/
theorem openChannel_child_source_failure_reports_success :
    (openChannel attachedState 16384 16384 true true badSourceEnv).1 = true ∧
    (openChannel attachedState 16384 16384 true true badSourceEnv).2.2 =
      [DevAction.setupInterrupt, DevAction.createChildInterruptSource] := by
  decide

/-- C3: the claim reads "close() performs, in order: interrupt teardown,
then a close-channel message, then teardown of both GPADLs, then release
of both DMA buffers, and finally transitions the channel to Closed."  On
the code only the interrupt teardown happens: the trace of closeChannel
on an open device with a child interrupt source is exactly
[disable, removeEventSource, teardownInterrupt] — no close-channel
message, no GPADL teardown, no buffer release — and `channelIsOpen` is
left unchanged (the `TODO: close channel.` comment at line 87 marks the
missing work). -/
theorem closeChannel_only_tears_down_interrupts :
    (closeChannel openedDeviceState).2 =
      [DevAction.disableChildInterruptSource, DevAction.removeEventSource,
       DevAction.teardownInterrupt] ∧
    (closeChannel openedDeviceState).1.channelIsOpen = true := by
  decide

/-- C6 counterexample: the claim says open(txSize, rxSize) validates that
both ring sizes are page-aligned and non-zero before acquiring any
resources, and fails when either size violates this.  With both sizes 0
(violating non-zero) openChannel still returns `true` and still performs
interrupt setup and the provider calls, passing the zero sizes through to
`initVMBusChannel`. -/
theorem openChannel_zero_sizes_succeed :
    (openChannel attachedState 0 0 true true okOpenEnv).1 = true ∧
    DevAction.initVMBusChannel 1 0 0 ∈
      (openChannel attachedState 0 0 true true okOpenEnv).2.2 := by
  decide

/-- C6 amended: openChannel performs no validation of the ring sizes at
all — its boolean result is independent of the values of `txSize` and
`rxSize`. -/
theorem openChannel_result_ignores_sizes :
    ∀ (s : DeviceState) (tx rx tx2 rx2 : Nat) (op ia : Bool) (env : OpenEnv),
      (openChannel s tx rx op ia env).1 = (openChannel s tx2 rx2 op ia env).1 := by
  intro s tx rx tx2 rx2 op ia env
  obtain ⟨cio, cid, tbs, rbs, cis⟩ := s
  obtain ⟨si, ie, ir, orr⟩ := env
  cases cio <;> cases si <;> cases op <;> cases ia <;> cases ie <;> rfl

/-- C9: whenever `setupInterrupt` succeeds, openChannel reports success:
every path past line 61 returns a value that reads as `true`, including
the failed child-interrupt-source branch, which returns `kIOReturnError`
through the `bool` return type (nonzero, hence `true`); the results of
`initVMBusChannel` and `openVMBusChannel` never influence the result. -/
theorem openChannel_true_whenever_setupInterrupt_succeeds :
    ∀ (s : DeviceState) (tx rx : Nat) (op ia : Bool) (env : OpenEnv),
      env.setupInterruptOk = true →
      (openChannel s tx rx op ia env).1 = true := by
  intro s tx rx op ia env h
  obtain ⟨cio, cid, tbs, rbs, cis⟩ := s
  obtain ⟨si, ie, ir, orr⟩ := env
  cases h
  cases cio <;> cases op <;> cases ia <;> cases ie <;> rfl

/-- Witness for C9 at a concrete input: the fresh attached state, ring
sizes 16384, owner and action present, all external calls succeeding. -/
theorem openChannel_true_whenever_setupInterrupt_succeeds_witness :
    okOpenEnv.setupInterruptOk = true ∧
    (openChannel attachedState 16384 16384 true true okOpenEnv).1 = true :=
  ⟨by decide,
   openChannel_true_whenever_setupInterrupt_succeeds attachedState 16384 16384
     true true okOpenEnv (by decide)⟩

/-- Translation of struct HyperVDMABuffer (VMBusDriver.hpp lines 23-29);
the descriptor pointers are represented by the physical address, buffer
address and size they manage. -/
structure HyperVDMABuffer where
  physAddr : Nat
  buffer : Nat
  size : Nat
deriving DecidableEq

/-- Translation of enum VMBusChannelStatus (VMBusDriver.hpp lines 34-39). -/
inductive VMBusChannelStatus
  | kVMBusChannelStatusNotPresent
  | kVMBusChannelStatusClosed
  | kVMBusChannelStatusGpadlConfigured
  | kVMBusChannelStatusOpen
deriving DecidableEq

/-- Translation of struct VMBusChannel (VMBusDriver.hpp lines 44-64): the
per-channel tracking record.  It holds ONE `gpadlHandle` field (the
source comment reads "Unique GPADL handle for this channel"), two DMA
buffers (`dataBuffer`, `eventBuffer`), and `rxPageIndex`, the "Index into
ring buffer where receive pages begin" — i.e. the receive area lives at a
page offset inside the single GPADL-registered region rather than behind
a second GPADL.  The `offerMessage` field is omitted (its type lives in
VMBus.hpp, which is not among the sources, and no claim touches it); the
tx/rx ring pointers are represented by their addresses. -/
structure VMBusChannel where
  status : VMBusChannelStatus
  typeGuidString : String
  gpadlHandle : Nat
  dataBuffer : HyperVDMABuffer
  eventBuffer : HyperVDMABuffer
  rxPageIndex : Nat
  txBuffer : Nat
  rxBuffer : Nat
deriving DecidableEq

/-- The GPADL handles a VMBusChannel record holds: exactly the value of
its single `gpadlHandle` field. -/
def VMBusChannel.gpadlHandles (c : VMBusChannel) : List Nat :=
  [c.gpadlHandle]

/-- A concrete channel record in the Open state, as it stands after a
successful open: one GPADL handle, the receive pages beginning at
`rxPageIndex` inside the same registered region. -/
def sampleOpenedChannel : VMBusChannel :=
  { status := VMBusChannelStatus.kVMBusChannelStatusOpen,
    typeGuidString := "f912ad6d-2b17-48ea-bd65-f927a61c7684",
    gpadlHandle := kHyperVGpadlStartHandle,
    dataBuffer := { physAddr := 0x100000, buffer := 0x5000, size := 16384 },
    eventBuffer := { physAddr := 0x200000, buffer := 0x9000, size := 4096 },
    rxPageIndex := 2, txBuffer := 0x5000, rxBuffer := 0x7000 }

/-- C4 counterexample: the claim says a successfully opened channel holds
two distinct GPADL handles (one per ring).  A channel record in the Open
state holds a single `gpadlHandle`, so no two distinct handles exist in
it. -/
theorem openedChannel_lacks_two_gpadl_handles :
    sampleOpenedChannel.status = VMBusChannelStatus.kVMBusChannelStatusOpen ∧
    ¬ ∃ h1 h2 : Nat, h1 ≠ h2 ∧ h1 ∈ sampleOpenedChannel.gpadlHandles ∧
        h2 ∈ sampleOpenedChannel.gpadlHandles := by
  refine ⟨rfl, ?_⟩
  rintro ⟨h1, h2, hne, m1, m2⟩
  simp [sampleOpenedChannel, VMBusChannel.gpadlHandles] at m1 m2
  exact hne (m1.trans m2.symm)

/-- C4 amended: a channel record holds exactly one GPADL handle — any two
handles it holds are equal; the receive ring is located by `rxPageIndex`
within the single registered region, not by a second handle. -/
theorem gpadlHandles_unique :
    ∀ (c : VMBusChannel) (h1 h2 : Nat),
      h1 ∈ c.gpadlHandles → h2 ∈ c.gpadlHandles → h1 = h2 := by
  intro c h1 h2 m1 m2
  simp [VMBusChannel.gpadlHandles] at m1 m2
  exact m1.trans m2.symm

/-- Witness for the amended C4 theorem at the concrete opened channel. -/
theorem gpadlHandles_unique_witness :
    kHyperVGpadlStartHandle ∈ sampleOpenedChannel.gpadlHandles ∧
    kHyperVGpadlStartHandle = kHyperVGpadlStartHandle :=
  ⟨by decide,
   gpadlHandles_unique sampleOpenedChannel kHyperVGpadlStartHandle
     kHyperVGpadlStartHandle (by decide) (by decide)⟩

/-- Modelled from the spec: the GPADL Registry's handle allocator.  The
allocation code (the VMBus controller's registration path) is not among
the provided sources — only its start constant `kHyperVGpadlStartHandle`
(VMBusDriver.hpp line 21) is.  Per the spec, `register` "allocates the
next unused handle (monotonically increasing from a fixed starting
value)" and `teardown` never reissues a freed handle, so the registry is
a counter that only ever moves forward. -/
structure GpadlRegistry where
  nextHandle : Nat
deriving DecidableEq

/-- A registry at process start: the counter sits at the fixed start
value 0xE1E10. -/
def GpadlRegistry.init : GpadlRegistry :=
  { nextHandle := kHyperVGpadlStartHandle }

/-- Modelled from the spec: registering a buffer hands out the current
counter value as the new handle and advances the counter. -/
def GpadlRegistry.registerBuffer (r : GpadlRegistry) : Nat × GpadlRegistry :=
  (r.nextHandle, { nextHandle := r.nextHandle + 1 })

/-- Modelled from the spec: tearing a handle down releases the host
mapping but never rewinds the counter, so a freed handle is never
reissued. -/
def GpadlRegistry.teardown (r : GpadlRegistry) (_handle : Nat) : GpadlRegistry :=
  r

/-- Requests the Registry can serve over a process lifetime. -/
inductive RegOp
  | registerBuffer
  | teardown (handle : Nat)
deriving DecidableEq

/-- Runs a sequence of registry requests, returning the final registry
and the handles issued, in issue order. -/
def runRegOps : GpadlRegistry → List RegOp → GpadlRegistry × List Nat
  | r, [] => (r, [])
  | r, RegOp.registerBuffer :: rest =>
      let p := r.registerBuffer
      let q := runRegOps p.2 rest
      (q.1, p.1 :: q.2)
  | r, RegOp.teardown h :: rest => runRegOps (r.teardown h) rest

/-- Every handle issued while running from registry `r` is at least the
counter `r` starts with. -/
theorem runRegOps_lower_bound :
    ∀ (ops : List RegOp) (r : GpadlRegistry) (h : Nat),
      h ∈ (runRegOps r ops).2 → r.nextHandle ≤ h := by
  intro ops
  induction ops with
  | nil => intro r h hm; simp [runRegOps] at hm
  | cons op rest ih =>
    intro r h hm
    cases op with
    | registerBuffer =>
      simp [runRegOps, GpadlRegistry.registerBuffer] at hm
      rcases hm with hm | hm
      · omega
      · have := ih { nextHandle := r.nextHandle + 1 } h hm
        simp at this
        omega
    | teardown x =>
      simp [runRegOps, GpadlRegistry.teardown] at hm
      exact ih r h hm

/-- The handles issued by any run are strictly increasing in issue
order. -/
theorem runRegOps_pairwise :
    ∀ (ops : List RegOp) (r : GpadlRegistry),
      ((runRegOps r ops).2).Pairwise (· < ·) := by
  intro ops
  induction ops with
  | nil => intro r; simp [runRegOps]
  | cons op rest ih =>
    intro r
    cases op with
    | registerBuffer =>
      simp only [runRegOps, GpadlRegistry.registerBuffer, List.pairwise_cons]
      refine ⟨?_, ih { nextHandle := r.nextHandle + 1 }⟩
      intro b hb
      have := runRegOps_lower_bound rest { nextHandle := r.nextHandle + 1 } b hb
      simp at this
      omega
    | teardown x =>
      simpa [runRegOps, GpadlRegistry.teardown] using ih r

/-- C5: over any sequence of registrations and teardowns starting from a
fresh registry, every issued GPADL handle is at least the fixed start
value 0xE1E10, the issued handles are strictly increasing in issue order,
and none is ever issued twice — teardowns (which leave the counter
untouched) notwithstanding. -/
theorem gpadl_handles_strictly_increasing :
    ∀ (ops : List RegOp) (h : Nat),
      h ∈ (runRegOps GpadlRegistry.init ops).2 →
      kHyperVGpadlStartHandle ≤ h ∧
      ((runRegOps GpadlRegistry.init ops).2).Pairwise (· < ·) ∧
      ((runRegOps GpadlRegistry.init ops).2).Nodup := by
  intro ops h hm
  refine ⟨?_, runRegOps_pairwise ops GpadlRegistry.init, ?_⟩
  · have := runRegOps_lower_bound ops GpadlRegistry.init h hm
    simpa [GpadlRegistry.init] using this
  · exact List.Pairwise.imp (fun hab => Nat.ne_of_lt hab)
      (runRegOps_pairwise ops GpadlRegistry.init)

/-- Witness for C5: a register, a teardown of the issued handle, and a
second register issue 0xE1E10 then 0xE1E11 — increasing, distinct, both
at or above the start value. -/
theorem gpadl_handles_strictly_increasing_witness :
    kHyperVGpadlStartHandle ∈
      (runRegOps GpadlRegistry.init
        [RegOp.registerBuffer, RegOp.teardown kHyperVGpadlStartHandle,
         RegOp.registerBuffer]).2 ∧
    (kHyperVGpadlStartHandle ≤ kHyperVGpadlStartHandle ∧
      ((runRegOps GpadlRegistry.init
        [RegOp.registerBuffer, RegOp.teardown kHyperVGpadlStartHandle,
         RegOp.registerBuffer]).2).Pairwise (· < ·) ∧
      ((runRegOps GpadlRegistry.init
        [RegOp.registerBuffer, RegOp.teardown kHyperVGpadlStartHandle,
         RegOp.registerBuffer]).2).Nodup) :=
  ⟨by decide,
   gpadl_handles_strictly_increasing
     [RegOp.registerBuffer, RegOp.teardown kHyperVGpadlStartHandle,
      RegOp.registerBuffer]
     kHyperVGpadlStartHandle (by decide)⟩

/-- Keyboard protocol message-type constants.  Modelled from the spec and
the Hyper-V synthetic keyboard protocol: HyperVKeyboard.hpp is not among
the sources; none of the drain-loop claims depend on the exact values. -/
def kHyperVKeyboardMessageTypeProtocolResponse : Nat := 2

/-- Keyboard key-event message type; see the note on
`kHyperVKeyboardMessageTypeProtocolResponse`. -/
def kHyperVKeyboardMessageTypeEvent : Nat := 3

/-- Ring size used by HyperVKeyboard::start.  Modelled from the spec: the
constant is defined in HyperVKeyboard.hpp, which is not among the
sources; the claims do not depend on its value. -/
def kHyperVKeyboardRingBufferSize : Nat := 16384

/-- The size in bytes of the stack buffer `UInt8 data128[128]` declared
at HyperVKeyboard.cpp line 82: `sizeof (data128)`. -/
def sizeofData128 : Nat := 128

/-- One inbound packet as the drain loop sees it: the data length
reported by `nextInbandPacketAvailable`, whether
`readInbandCompletionPacket` returns kIOReturnSuccess for it, and the
message type found in its header. -/
structure InbandPacket where
  len : Nat
  readOk : Bool
  msgType : Nat
deriving DecidableEq

/-- Observable steps of HyperVKeyboard::handleInterrupt. -/
inductive KAction
  | checkAvail (r : Option Nat)
  | useStackBuffer
  | allocHeap (n : Nat)
  | readPacket (n : Nat)
  | handleProtocolResponse
  | dispatchKeyboardEvent
  | logUnknownMessage
  | freeHeap (n : Nat)
deriving DecidableEq

/-- The switch on `message->header.type` (HyperVKeyboard.cpp lines
106-121): a protocol response is logged, a key event is dispatched, and
anything else is logged as unknown. -/
def dispatchOf (t : Nat) : KAction :=
  if t = kHyperVKeyboardMessageTypeProtocolResponse then
    KAction.handleProtocolResponse
  else if t = kHyperVKeyboardMessageTypeEvent then
    KAction.dispatchKeyboardEvent
  else
    KAction.logUnknownMessage

/-- The body of the switch runs only when `readInbandCompletionPacket`
returned kIOReturnSuccess (line 105). -/
def dispatchActions (p : InbandPacket) : List KAction :=
  if p.readOk then [dispatchOf p.msgType] else []

/-- One iteration of the handleInterrupt do-while loop
(HyperVKeyboard.cpp lines 84-130) for a packet that is available:
  * lines 91-93: `nextInbandPacketAvailable(&pktDataLength)` reports the
    length without consuming the packet;
  * lines 95-100: if `pktDataLength <= sizeof (data128)` the 128-byte
    stack buffer is used, otherwise `IOMalloc(pktDataLength)` heap-
    allocates exactly `pktDataLength` bytes;
  * line 105: the destructive read of `pktDataLength` bytes;
  * lines 106-121: dispatch on the message type when the read succeeded;
  * lines 127-129: `IOFree(message, pktDataLength)` iff a heap buffer was
    allocated, before the loop continues. -/
def drainOne (p : InbandPacket) : List KAction :=
  KAction.checkAvail (some p.len) ::
  (if p.len ≤ sizeofData128 then KAction.useStackBuffer
   else KAction.allocHeap p.len) ::
  KAction.readPacket p.len ::
  (dispatchActions p ++
   (if p.len ≤ sizeofData128 then [] else [KAction.freeHeap p.len]))

/-- The whole do-while loop over the queue of available inband packets:
each available packet is drained in turn; when `nextInbandPacketAvailable`
reports no packet the loop breaks (lines 91-93). -/
def drainLoop : List InbandPacket → List KAction
  | [] => [KAction.checkAvail none]
  | p :: rest => drainOne p ++ drainLoop rest

/-- The dispatch step is one of the three switch arms. -/
theorem dispatchOf_cases (t : Nat) :
    dispatchOf t = KAction.handleProtocolResponse ∨
    dispatchOf t = KAction.dispatchKeyboardEvent ∨
    dispatchOf t = KAction.logUnknownMessage := by
  unfold dispatchOf
  split
  · exact Or.inl rfl
  · split
    · exact Or.inr (Or.inl rfl)
    · exact Or.inr (Or.inr rfl)

/-- C7: for every inbound packet, the drain loop first obtains the data
length non-destructively via `nextInbandPacketAvailable`, then sizes the
receive buffer — the 128-byte stack buffer when the length is at most
128 bytes, a heap allocation of exactly the packet's length otherwise —
and only then performs the destructive read of that length; the read
happens nowhere else in the iteration. -/
theorem handleInterrupt_sizes_buffer_before_read :
    ∀ p : InbandPacket, ∃ post : List KAction,
      drainOne p =
        KAction.checkAvail (some p.len) ::
        (if p.len ≤ sizeofData128 then KAction.useStackBuffer
         else KAction.allocHeap p.len) ::
        KAction.readPacket p.len :: post ∧
      ∀ n : Nat, KAction.readPacket n ∉ post := by
  intro p
  refine ⟨dispatchActions p ++
    (if p.len ≤ sizeofData128 then [] else [KAction.freeHeap p.len]),
    rfl, ?_⟩
  intro n hm
  rcases List.mem_append.1 hm with hd | hf
  · unfold dispatchActions at hd
    by_cases hk : p.readOk
    · simp only [hk, if_true, List.mem_singleton] at hd
      rcases dispatchOf_cases p.msgType with h | h | h <;> rw [h] at hd <;>
        exact KAction.noConfusion hd
    · simp [hk] at hd
  · by_cases hl : p.len ≤ sizeofData128 <;> simp [hl] at hf

/-- Witness for C7 at a concrete small packet (a 4-byte key event). -/
theorem handleInterrupt_sizes_buffer_before_read_witness :
    ∃ post : List KAction,
      drainOne { len := 4, readOk := true, msgType := 3 } =
        KAction.checkAvail (some 4) ::
        (if 4 ≤ sizeofData128 then KAction.useStackBuffer
         else KAction.allocHeap 4) ::
        KAction.readPacket 4 :: post ∧
      ∀ n : Nat, KAction.readPacket n ∉ post :=
  handleInterrupt_sizes_buffer_before_read { len := 4, readOk := true, msgType := 3 }

/-- No heap allocation happens inside the message-type dispatch. -/
theorem allocHeap_not_in_dispatch (p : InbandPacket) (n : Nat) :
    KAction.allocHeap n ∉ dispatchActions p := by
  intro h
  unfold dispatchActions at h
  by_cases hk : p.readOk
  · simp only [hk, if_true, List.mem_singleton] at h
    rcases dispatchOf_cases p.msgType with h2 | h2 | h2 <;> rw [h2] at h <;>
      exact KAction.noConfusion h
  · simp [hk] at h

/-- No heap free happens inside the message-type dispatch. -/
theorem freeHeap_not_in_dispatch (p : InbandPacket) (n : Nat) :
    KAction.freeHeap n ∉ dispatchActions p := by
  intro h
  unfold dispatchActions at h
  by_cases hk : p.readOk
  · simp only [hk, if_true, List.mem_singleton] at h
    rcases dispatchOf_cases p.msgType with h2 | h2 | h2 <;> rw [h2] at h <;>
      exact KAction.noConfusion h
  · simp [hk] at h

/-- C10: in every iteration of the drain loop, a heap buffer of `n` bytes
is allocated iff `n` is the packet's data length and that length exceeds
the 128-byte stack buffer; the matching free of exactly that size occurs
in the same iteration — as its final action — whether or not the read
succeeded; and when no packet is available the loop performs only the
failed availability check and exits. -/
theorem handleInterrupt_heap_alloc_free :
    ∀ (p : InbandPacket) (n : Nat),
      ((KAction.allocHeap n ∈ drainOne p) ↔
        (n = p.len ∧ sizeofData128 < p.len)) ∧
      ((KAction.freeHeap n ∈ drainOne p) ↔
        (n = p.len ∧ sizeofData128 < p.len)) ∧
      (sizeofData128 < p.len →
        ∃ pre : List KAction, drainOne p = pre ++ [KAction.freeHeap p.len]) ∧
      drainLoop [] = [KAction.checkAvail none] := by
  intro p n
  by_cases hl : p.len ≤ sizeofData128
  · have hgt : ¬ sizeofData128 < p.len := by omega
    refine ⟨?_, ?_, fun h2 => absurd h2 hgt, rfl⟩
    · simp only [drainOne, hl, if_true, List.append_nil, List.mem_cons]
      constructor
      · rintro (h2 | h2 | h2 | h2)
        · exact KAction.noConfusion h2
        · exact KAction.noConfusion h2
        · exact KAction.noConfusion h2
        · exact absurd h2 (allocHeap_not_in_dispatch p n)
      · rintro ⟨rfl, h3⟩
        omega
    · simp only [drainOne, hl, if_true, List.append_nil, List.mem_cons]
      constructor
      · rintro (h2 | h2 | h2 | h2)
        · exact KAction.noConfusion h2
        · exact KAction.noConfusion h2
        · exact KAction.noConfusion h2
        · exact absurd h2 (freeHeap_not_in_dispatch p n)
      · rintro ⟨rfl, h3⟩
        omega
  · have hgt : sizeofData128 < p.len := Nat.not_le.mp hl
    refine ⟨?_, ?_, ?_, rfl⟩
    · simp only [drainOne, hl, if_false, List.mem_cons, List.mem_append,
        List.mem_singleton]
      constructor
      · rintro (h2 | h2 | h2 | h2 | h2)
        · exact KAction.noConfusion h2
        · injection h2 with h3
          exact ⟨h3, hgt⟩
        · exact KAction.noConfusion h2
        · exact absurd h2 (allocHeap_not_in_dispatch p n)
        · rcases h2 with h2 | h2
          · exact KAction.noConfusion h2
          · exact absurd h2 (List.not_mem_nil _)
      · rintro ⟨rfl, h3⟩
        exact Or.inr (Or.inl rfl)
    · simp only [drainOne, hl, if_false, List.mem_cons, List.mem_append,
        List.mem_singleton]
      constructor
      · rintro (h2 | h2 | h2 | h2 | h2)
        · exact KAction.noConfusion h2
        · exact KAction.noConfusion h2
        · exact KAction.noConfusion h2
        · exact absurd h2 (freeHeap_not_in_dispatch p n)
        · rcases h2 with h2 | h2
          · injection h2 with h3
            exact ⟨h3, hgt⟩
          · exact absurd h2 (List.not_mem_nil _)
      · rintro ⟨rfl, h3⟩
        exact Or.inr (Or.inr (Or.inr (Or.inr (Or.inl rfl))))
    · intro h2
      refine ⟨KAction.checkAvail (some p.len) :: KAction.allocHeap p.len ::
        KAction.readPacket p.len :: dispatchActions p, ?_⟩
      simp [drainOne, hl]

/-- Witness for C10 at a concrete large packet (300 bytes, failed read),
showing the allocation and the matching free occur even when the read
fails. -/
theorem handleInterrupt_heap_alloc_free_witness :
    ((KAction.allocHeap 300 ∈ drainOne { len := 300, readOk := false, msgType := 0 }) ↔
      (300 = 300 ∧ sizeofData128 < 300)) ∧
    ((KAction.freeHeap 300 ∈ drainOne { len := 300, readOk := false, msgType := 0 }) ↔
      (300 = 300 ∧ sizeofData128 < 300)) ∧
    (sizeofData128 < 300 →
      ∃ pre : List KAction,
        drainOne { len := 300, readOk := false, msgType := 0 } =
          pre ++ [KAction.freeHeap 300]) ∧
    drainLoop [] = [KAction.checkAvail none] :=
  handleInterrupt_heap_alloc_free { len := 300, readOk := false, msgType := 0 } 300

/-- Observable steps of HyperVKeyboard::start (HyperVKeyboard.cpp lines
13-53). -/
inductive StartAction
  | superStart
  | retainDevice
  | createInterruptSource
  | addEventSource
  | enableInterruptSource
  | openChannelCall (ringSize : Nat)
  | disableInterruptSource
  | removeEventSource
  | releaseInterruptSource
  | superStop
  | connectKeyboard
deriving DecidableEq

/-- Outcomes of the external calls HyperVKeyboard::start makes:
`super::start`, the `OSDynamicCast` of the provider, and
`hvDevice->openChannel`. -/
structure StartEnv where
  superStartOk : Bool
  castOk : Bool
  openChannelOk : Bool
deriving DecidableEq

/-- HyperVKeyboard::start (HyperVKeyboard.cpp lines 13-53), translated
line by line:
  * lines 14-16: `super::start` failing returns `false` at once;
  * lines 23-28: a failed `OSDynamicCast` calls `super::stop` and
    returns `false`; on success the device is retained;
  * lines 33-36: the interrupt event source is created, added to the
    work loop and enabled;
  * lines 41-47: `openChannel(kHyperVKeyboardRingBufferSize,
    kHyperVKeyboardRingBufferSize)` failing makes start disable the
    interrupt source, remove it from the work loop, release it
    (`OSSafeReleaseNULL`), call `super::stop`, and return `false`;
  * lines 49-52: otherwise `connectKeyboard` runs and start returns
    `true`. -/
def keyboardStart (env : StartEnv) : Bool × List StartAction :=
  if !env.superStartOk then
    (false, [StartAction.superStart])
  else if !env.castOk then
    (false, [StartAction.superStart, StartAction.superStop])
  else if !env.openChannelOk then
    (false,
      [StartAction.superStart, StartAction.retainDevice,
       StartAction.createInterruptSource, StartAction.addEventSource,
       StartAction.enableInterruptSource,
       StartAction.openChannelCall kHyperVKeyboardRingBufferSize,
       StartAction.disableInterruptSource, StartAction.removeEventSource,
       StartAction.releaseInterruptSource, StartAction.superStop])
  else
    (true,
      [StartAction.superStart, StartAction.retainDevice,
       StartAction.createInterruptSource, StartAction.addEventSource,
       StartAction.enableInterruptSource,
       StartAction.openChannelCall kHyperVKeyboardRingBufferSize,
       StartAction.connectKeyboard])

/-- C8: when the channel open fails during keyboard start (after
`super::start` and the provider cast succeeded), the failure unwinds
fully — after the failed openChannel call the interrupt event source is
disabled, removed from the work loop and released, `super::stop` runs —
and start reports the failure to the caller by returning `false`. -/
theorem keyboardStart_openChannel_failure_unwinds :
    ∀ env : StartEnv,
      env.superStartOk = true → env.castOk = true →
      env.openChannelOk = false →
      (keyboardStart env).1 = false ∧
      (keyboardStart env).2 =
        [StartAction.superStart, StartAction.retainDevice,
         StartAction.createInterruptSource, StartAction.addEventSource,
         StartAction.enableInterruptSource,
         StartAction.openChannelCall kHyperVKeyboardRingBufferSize,
         StartAction.disableInterruptSource, StartAction.removeEventSource,
         StartAction.releaseInterruptSource, StartAction.superStop] := by
  intro env h1 h2 h3
  obtain ⟨a, b, c⟩ := env
  cases h1
  cases h2
  cases h3
  exact ⟨rfl, rfl⟩

/-- Witness for C8 at the concrete environment where only the channel
open fails. -/
theorem keyboardStart_openChannel_failure_unwinds_witness :
    (StartEnv.mk true true false).superStartOk = true ∧
    (keyboardStart (StartEnv.mk true true false)).1 = false ∧
    (keyboardStart (StartEnv.mk true true false)).2 =
      [StartAction.superStart, StartAction.retainDevice,
       StartAction.createInterruptSource, StartAction.addEventSource,
       StartAction.enableInterruptSource,
       StartAction.openChannelCall kHyperVKeyboardRingBufferSize,
       StartAction.disableInterruptSource, StartAction.removeEventSource,
       StartAction.releaseInterruptSource, StartAction.superStop] :=
  ⟨rfl,
   (keyboardStart_openChannel_failure_unwinds (StartEnv.mk true true false)
     rfl rfl rfl).1,
   (keyboardStart_openChannel_failure_unwinds (StartEnv.mk true true false)
     rfl rfl rfl).2⟩
